import Mathlib

/-!
Verification of the FoodAbuser local-persistence, aggregation and auth layers.

The definitions below are a shallow embedding of the JavaScript source:
  - the SQLite-backed record store of src/src/services/CameraService.js
    (DatabaseService section) is modelled as lists of typed rows with
    explicit error propagation (`Except`); the SQLite library's
    `withTransactionAsync` rollback-on-throw semantics is modelled by the
    caller keeping the pre-call state when the transaction body errors;
  - JavaScript falsiness (`x || d`, where `undefined`, `null`, `0` and `""`
    are falsy) is modelled by the `jsOr*` helpers;
  - `Date.now()`, random id suffixes and `new Date().toISOString()` are
    passed in as explicit parameters;
  - the statistics functions of src/src/context/MealContext.js and the PIN
    session guard of the same file are modelled as pure functions over
    explicit state.
-/

/-- JS `x || d` for an optional string: missing (`undefined`/`null`) and `""` are falsy. -/
def jsOrStr (x : Option String) (d : String) : String :=
  match x with
  | none => d
  | some s => if s = "" then d else s

/-- JS `x || null` for an optional string: `""` collapses to `null`. -/
def jsOrNullStr (x : Option String) : Option String :=
  match x with
  | none => none
  | some s => if s = "" then none else some s

/-- JS `x || d` for an optional integer: missing and `0` are falsy. -/
def jsOrInt (x : Option Int) (d : Int) : Int :=
  match x with
  | none => d
  | some n => if n = 0 then d else n

/-- JS `x || null` for an optional integer: `0` collapses to `null`. -/
def jsOrNullInt (x : Option Int) : Option Int :=
  match x with
  | none => none
  | some n => if n = 0 then none else some n

/-- JS `x || d` for an optional real (modelled as `Rat`). -/
def jsOrRat (x : Option Rat) (d : Rat) : Rat :=
  match x with
  | none => d
  | some q => if q = 0 then d else q

/-- JS `x || null` for an optional real. -/
def jsOrNullRat (x : Option Rat) : Option Rat :=
  match x with
  | none => none
  | some q => if q = 0 then none else some q

/-- JS `x || d` on an already-present integer value (only `0` is falsy). -/
def jsOrIntV (x d : Int) : Int :=
  if x = 0 then d else x

/-- JS `x || d` on an already-present real value. -/
def jsOrRatV (x d : Rat) : Rat :=
  if x = 0 then d else x

/-- JS `isoString.split('T')[0]`: the calendar-date part of an ISO timestamp. -/
def dateOf (now : String) : String :=
  ((now.splitOn "T").headD "")

/-- Lexicographic comparison of character lists by code point. -/
def textLeList : List Char → List Char → Bool
  | [], _ => true
  | _ :: _, [] => false
  | a :: as, b :: bs =>
    if a.toNat < b.toNat then true
    else if b.toNat < a.toNat then false
    else textLeList as bs

/-- The ordering SQLite applies to TEXT columns (binary/byte order, which for
the ASCII ISO-8601 strings used here agrees with code-point order); also the
order of the JS `new Date(a) - new Date(b)` comparators on such strings. -/
def sqliteTextLe (a b : String) : Bool :=
  textLeList a.data b.data

/-- The generated-id scheme of the source: `{prefix}_{Date.now()}_{random suffix}`. -/
def genRecordId (pre : String) (epochMs : Int) (rand : String) : String :=
  pre ++ "_" ++ toString epochMs ++ "_" ++ rand

/-- A persisted row of the `meals` table (schema of createTables). -/
structure MealRow where
  id : String
  user_id : Option String
  title : String
  description : Option String
  category : String
  portion_weight : Option Int
  calories : Int
  protein : Rat
  fat : Rat
  carbs : Rat
  image_url : Option String
  meal_time : String
  created_at : String
  updated_at : String
deriving Repr, DecidableEq

/-- A persisted row of the `water_records` table. -/
structure WaterRow where
  id : String
  user_id : Option String
  amount_ml : Int
  record_date : String
  created_at : String
deriving Repr, DecidableEq

/-- A persisted row of the `weight_records` table. -/
structure WeightRow where
  id : String
  user_id : Option String
  weight_kg : Rat
  record_date : String
  created_at : String
deriving Repr, DecidableEq

/-- A persisted row of the `user_settings` table (SQLite allows a NULL TEXT
primary key, hence `Option String`). -/
structure SettingsRow where
  id : Option String
  user_id : Option String
  daily_calorie_goal : Int
  daily_water_goal_ml : Int
  target_weight_kg : Option Rat
  initial_weight_kg : Option Rat
  notifications_enabled : Int
  dark_mode : Int
  language : String
  created_at : String
  updated_at : String
deriving Repr, DecidableEq

/-- The caller-supplied `mealData` object; absent JS fields are `none`. -/
structure MealInput where
  id : Option String := none
  user_id : Option String := none
  title : Option String := none
  description : Option String := none
  category : Option String := none
  portion_weight : Option Int := none
  calories : Option Int := none
  protein : Option Rat := none
  fat : Option Rat := none
  carbs : Option Rat := none
  image_url : Option String := none
  meal_time : Option String := none
  created_at : Option String := none
  updated_at : Option String := none
deriving Repr, DecidableEq

/-- The caller-supplied `waterData` object. -/
structure WaterInput where
  id : Option String := none
  user_id : Option String := none
  amount_ml : Option Int := none
  record_date : Option String := none
  created_at : Option String := none
deriving Repr, DecidableEq

/-- The caller-supplied `weightData` object (`weight` and `weight_kg` both accepted). -/
structure WeightInput where
  id : Option String := none
  user_id : Option String := none
  weight : Option Rat := none
  weight_kg : Option Rat := none
  record_date : Option String := none
  created_at : Option String := none
deriving Repr, DecidableEq

/-- The caller-supplied settings object used by the import path. -/
structure SettingsInput where
  id : Option String := none
  user_id : Option String := none
  daily_calorie_goal : Option Int := none
  daily_water_goal_ml : Option Int := none
  target_weight_kg : Option Rat := none
  initial_weight_kg : Option Rat := none
  notifications_enabled : Option Int := none
  dark_mode : Option Int := none
  language : Option String := none
  created_at : Option String := none
  updated_at : Option String := none
deriving Repr, DecidableEq

/-- The four entity collections of the SQLite database. -/
structure Store where
  meals : List MealRow
  water : List WaterRow
  weight : List WeightRow
  settings : List SettingsRow
deriving Repr, DecidableEq

/-- The empty store (fresh schema, no rows). -/
def emptyStore : Store :=
  { meals := [], water := [], weight := [], settings := [] }

/-- Runtime failures of the data layer: a JS `TypeError` from dereferencing a
`null` handle or a `null` query result, a UNIQUE (primary key) violation on
INSERT, and a NOT NULL violation on UPDATE. -/
inductive DBError where
  | typeError
  | uniqueViolation
  | notNullViolation
deriving Repr, DecidableEq

/-- The row built from `mealData` by the INSERT of `addMeal` (parameter list of
the INSERT statement; `created_at`/`updated_at` are always stamped to `now`). -/
def applyMealDefaults (d : MealInput) (genId now : String) : MealRow :=
  { id := jsOrStr d.id genId
    user_id := jsOrNullStr d.user_id
    title := jsOrStr d.title ""
    description := jsOrNullStr d.description
    category := jsOrStr d.category "snack"
    portion_weight := jsOrNullInt d.portion_weight
    calories := jsOrInt d.calories 0
    protein := jsOrRat d.protein 0
    fat := jsOrRat d.fat 0
    carbs := jsOrRat d.carbs 0
    image_url := jsOrNullStr d.image_url
    meal_time := jsOrStr d.meal_time now
    created_at := now
    updated_at := now }

/-- The result mapping applied by `loadMeals`/`addMeal`/`updateMeal` to a row
read back from SQLite (`row.calories || 0` and friends). -/
def mealRowToRecord (r : MealRow) : MealRow :=
  { r with
    calories := jsOrIntV r.calories 0
    protein := jsOrRatV r.protein 0
    fat := jsOrRatV r.fat 0
    carbs := jsOrRatV r.carbs 0 }

/-- Database path of `addMeal`: INSERT the defaulted row (UNIQUE id), then read
it back with `getFirstAsync` and return the mapped record; a `null` read-back
would be a JS TypeError. -/
def addMealDB (st : Store) (d : MealInput) (genId now : String) :
    Except DBError (MealRow × Store) :=
  let row := applyMealDefaults d genId now
  if st.meals.any (fun r => r.id == row.id) then
    .error .uniqueViolation
  else
    let st' : Store := { st with meals := st.meals ++ [row] }
    match st'.meals.find? (fun r => r.id == row.id) with
    | none => .error .typeError
    | some r => .ok (mealRowToRecord r, st')

/-- Database path of `loadMeals` after the period switch: rows with
`meal_time >= startDateStr`, optionally filtered by a truthy `userId`,
ordered by `meal_time` descending, mapped to records. -/
def loadMealsDB (st : Store) (startDateStr : String) (userId : Option String) :
    List MealRow :=
  let rows := st.meals.filter fun r =>
    sqliteTextLe startDateStr r.meal_time &&
      (match userId with
       | none => true
       | some u => if u = "" then true else r.user_id == some u)
  ((rows.insertionSort fun a b => sqliteTextLe b.meal_time a.meal_time = true).map mealRowToRecord)

/-- Database path of `updateMeal`: UPDATE all mutable columns and `updated_at`
for the row matching `id` (an absent id binds SQL NULL and matches nothing),
then read the row back; a missing row makes the read-back `null` and the JS
`result.id` access a TypeError.  The second component is the store after the
statement. -/
def updateMealDB (st : Store) (d : MealInput) (now : String) :
    Except DBError MealRow × Store :=
  match d.id with
  | none => (.error .typeError, st)
  | some i =>
    let meals' := st.meals.map fun r =>
      if r.id == i then
        { r with
          title := jsOrStr d.title ""
          description := jsOrNullStr d.description
          category := jsOrStr d.category "snack"
          portion_weight := jsOrNullInt d.portion_weight
          calories := jsOrInt d.calories 0
          protein := jsOrRat d.protein 0
          fat := jsOrRat d.fat 0
          carbs := jsOrRat d.carbs 0
          image_url := jsOrNullStr d.image_url
          meal_time := jsOrStr d.meal_time now
          updated_at := now }
      else r
    let st' : Store := { st with meals := meals' }
    match meals'.find? (fun r => r.id == i) with
    | none => (.error .typeError, st')
    | some r => (.ok (mealRowToRecord r), st')

/-- Database path of `deleteMeal`: DELETE the matching row (if any) and return
`true` unconditionally. -/
def deleteMealDB (st : Store) (mealId : String) : Bool × Store :=
  (true, { st with meals := st.meals.filter fun r => !(r.id == mealId) })

/-- The row built from `waterData` by the INSERT of `addWaterRecord`
(`record_date` defaults to the date part of `now`). -/
def applyWaterDefaults (d : WaterInput) (genId now : String) : WaterRow :=
  { id := jsOrStr d.id genId
    user_id := jsOrNullStr d.user_id
    amount_ml := jsOrInt d.amount_ml 0
    record_date := jsOrStr d.record_date (dateOf now)
    created_at := now }

/-- Database path of `addWaterRecord`: INSERT then read back. -/
def addWaterRecordDB (st : Store) (d : WaterInput) (genId now : String) :
    Except DBError (WaterRow × Store) :=
  let row := applyWaterDefaults d genId now
  if st.water.any (fun r => r.id == row.id) then
    .error .uniqueViolation
  else
    let st' : Store := { st with water := st.water ++ [row] }
    match st'.water.find? (fun r => r.id == row.id) with
    | none => .error .typeError
    | some r => .ok (r, st')

/-- Database path of `loadWaterRecords` after the period switch. -/
def loadWaterRecordsDB (st : Store) (startDateStr : String) (userId : Option String) :
    List WaterRow :=
  let rows := st.water.filter fun r =>
    sqliteTextLe startDateStr r.record_date &&
      (match userId with
       | none => true
       | some u => if u = "" then true else r.user_id == some u)
  (rows.insertionSort fun a b => sqliteTextLe b.record_date a.record_date = true)

/-- Database path of `updateWaterRecord`: UPDATE `amount_ml` and `record_date`
for the matching row, then read back.  Binding an absent `record_date` writes
SQL NULL into a NOT NULL column, which aborts the statement when a row
matches. -/
def updateWaterRecordDB (st : Store) (d : WaterInput) :
    Except DBError WaterRow × Store :=
  match d.id with
  | none => (.error .typeError, st)
  | some i =>
    if st.water.any (fun r => r.id == i) then
      match d.record_date with
      | none => (.error .notNullViolation, st)
      | some rd =>
        let water' := st.water.map fun r =>
          if r.id == i then
            { r with amount_ml := jsOrInt d.amount_ml 0, record_date := rd }
          else r
        let st' : Store := { st with water := water' }
        match water'.find? (fun r => r.id == i) with
        | none => (.error .typeError, st')
        | some r => (.ok r, st')
    else
      (.error .typeError, st)

/-- Database path of `deleteWaterRecord`. -/
def deleteWaterRecordDB (st : Store) (recordId : String) : Bool × Store :=
  (true, { st with water := st.water.filter fun r => !(r.id == recordId) })

/-- The weight value computed by the weight operations:
`parseFloat(weightData.weight || weightData.weight_kg || 0)`. -/
def weightValue (d : WeightInput) : Rat :=
  jsOrRat d.weight (jsOrRat d.weight_kg 0)

/-- The row built from `weightData` by the INSERT of `addWeightRecord`. -/
def applyWeightDefaults (d : WeightInput) (genId now : String) : WeightRow :=
  { id := jsOrStr d.id genId
    user_id := jsOrNullStr d.user_id
    weight_kg := weightValue d
    record_date := jsOrStr d.record_date (dateOf now)
    created_at := now }

/-- A weight record as returned to callers: the row with the `weight_kg`
column duplicated into a `weight` field. -/
structure WeightRecordOut where
  id : String
  user_id : Option String
  weight : Rat
  weight_kg : Rat
  record_date : String
  created_at : String
deriving Repr, DecidableEq

/-- The row-to-record mapping of the weight operations. -/
def weightRowToRecord (r : WeightRow) : WeightRecordOut :=
  { id := r.id
    user_id := r.user_id
    weight := r.weight_kg
    weight_kg := r.weight_kg
    record_date := r.record_date
    created_at := r.created_at }

/-- Database path of `addWeightRecord`: INSERT then read back. -/
def addWeightRecordDB (st : Store) (d : WeightInput) (genId now : String) :
    Except DBError (WeightRecordOut × Store) :=
  let row := applyWeightDefaults d genId now
  if st.weight.any (fun r => r.id == row.id) then
    .error .uniqueViolation
  else
    let st' : Store := { st with weight := st.weight ++ [row] }
    match st'.weight.find? (fun r => r.id == row.id) with
    | none => .error .typeError
    | some r => .ok (weightRowToRecord r, st')

/-- Database path of `loadWeightRecords` after the period switch. -/
def loadWeightRecordsDB (st : Store) (startDateStr : String) (userId : Option String) :
    List WeightRecordOut :=
  let rows := st.weight.filter fun r =>
    sqliteTextLe startDateStr r.record_date &&
      (match userId with
       | none => true
       | some u => if u = "" then true else r.user_id == some u)
  ((rows.insertionSort fun a b => sqliteTextLe b.record_date a.record_date = true).map weightRowToRecord)

/-- Database path of `updateWeightRecord`: UPDATE `weight_kg` and `record_date`
for the matching row, then read back (same NOT NULL and `null` read-back
behaviour as the water update). -/
def updateWeightRecordDB (st : Store) (d : WeightInput) :
    Except DBError WeightRecordOut × Store :=
  match d.id with
  | none => (.error .typeError, st)
  | some i =>
    if st.weight.any (fun r => r.id == i) then
      match d.record_date with
      | none => (.error .notNullViolation, st)
      | some rd =>
        let weight' := st.weight.map fun r =>
          if r.id == i then
            { r with weight_kg := weightValue d, record_date := rd }
          else r
        let st' : Store := { st with weight := weight' }
        match weight'.find? (fun r => r.id == i) with
        | none => (.error .typeError, st')
        | some r => (.ok (weightRowToRecord r), st')
    else
      (.error .typeError, st)

/-- Database path of `deleteWeightRecord`. -/
def deleteWeightRecordDB (st : Store) (recordId : String) : Bool × Store :=
  (true, { st with weight := st.weight.filter fun r => !(r.id == recordId) })

/-- The versioned export document of `exportAllData`. -/
structure ExportDoc where
  version : String
  exportDate : String
  meals : List MealRow
  water_records : List WaterRow
  weight_records : List WeightRow
  user_settings : List SettingsRow
deriving Repr, DecidableEq

/-- Database path of `exportAllData`: read every row of every collection
(meals/water/weight ordered descending by their time column) and wrap them
with the version tag and export timestamp.  A pure read. -/
def exportAllDB (st : Store) (now : String) : ExportDoc :=
  { version := "2.0.0"
    exportDate := now
    meals := st.meals.insertionSort fun a b => sqliteTextLe b.meal_time a.meal_time = true
    water_records := st.water.insertionSort fun a b => sqliteTextLe b.record_date a.record_date = true
    weight_records := st.weight.insertionSort fun a b => sqliteTextLe b.record_date a.record_date = true
    user_settings := st.settings }

/-- The import document consumed by `importAllData` (`importData.data`); each
collection is optional because of the `importData.data?.meals` guards. -/
structure ImportDoc where
  meals : Option (List MealInput) := none
  water_records : Option (List WaterInput) := none
  weight_records : Option (List WeightInput) := none
  user_settings : Option (List SettingsInput) := none
deriving Repr, DecidableEq

/-- One INSERT OR REPLACE into `user_settings` as issued by `importAllData`:
rows with the same (non-NULL) primary key are replaced; this statement cannot
fail. -/
def upsertSettingDB (st : Store) (s : SettingsInput) (now : String) : Store :=
  let row : SettingsRow :=
    { id := s.id
      user_id := jsOrNullStr s.user_id
      daily_calorie_goal := jsOrInt s.daily_calorie_goal 2000
      daily_water_goal_ml := jsOrInt s.daily_water_goal_ml 2000
      target_weight_kg := jsOrNullRat s.target_weight_kg
      initial_weight_kg := jsOrNullRat s.initial_weight_kg
      notifications_enabled := s.notifications_enabled.getD 1
      dark_mode := s.dark_mode.getD 0
      language := jsOrStr s.language "ru"
      created_at := jsOrStr s.created_at now
      updated_at := jsOrStr s.updated_at now }
  let kept := match s.id with
    | none => st.settings
    | some i => st.settings.filter fun r => !(r.id == some i)
  { st with settings := kept ++ [row] }

/-- The meal-import loop of `importAllData`: each document meal is inserted via
`addMeal`; `k` indexes the supply `gen` of generated ids. -/
def importMealsDB (gen : Nat → String) (now : String) :
    List MealInput → Store → Nat → Except DBError (Store × Nat)
  | [], st, k => .ok (st, k)
  | d :: ds, st, k =>
    match addMealDB st d (gen k) now with
    | .error e => .error e
    | .ok (_, st') => importMealsDB gen now ds st' (k + 1)

/-- The water-import loop of `importAllData`. -/
def importWaterDB (gen : Nat → String) (now : String) :
    List WaterInput → Store → Nat → Except DBError (Store × Nat)
  | [], st, k => .ok (st, k)
  | d :: ds, st, k =>
    match addWaterRecordDB st d (gen k) now with
    | .error e => .error e
    | .ok (_, st') => importWaterDB gen now ds st' (k + 1)

/-- The weight-import loop of `importAllData`. -/
def importWeightDB (gen : Nat → String) (now : String) :
    List WeightInput → Store → Nat → Except DBError (Store × Nat)
  | [], st, k => .ok (st, k)
  | d :: ds, st, k =>
    match addWeightRecordDB st d (gen k) now with
    | .error e => .error e
    | .ok (_, st') => importWeightDB gen now ds st' (k + 1)

/-- The settings-import loop of `importAllData` (cannot fail). -/
def importSettingsDB (now : String) : List SettingsInput → Store → Store
  | [], st => st
  | s :: ss, st => importSettingsDB now ss (upsertSettingDB st s now)

/-- The body of the `withTransactionAsync` callback in `importAllData`: clear
all four collections when `overwrite` is set, then insert every document row. -/
def importBodyDB (st : Store) (doc : ImportDoc) (overwrite : Bool)
    (gen : Nat → String) (now : String) : Except DBError Store :=
  let st0 := if overwrite then emptyStore else st
  match importMealsDB gen now (doc.meals.getD []) st0 0 with
  | .error e => .error e
  | .ok (st1, k1) =>
    match importWaterDB gen now (doc.water_records.getD []) st1 k1 with
    | .error e => .error e
    | .ok (st2, k2) =>
      match importWeightDB gen now (doc.weight_records.getD []) st2 k2 with
      | .error e => .error e
      | .ok (st3, _) =>
        .ok (importSettingsDB now (doc.user_settings.getD []) st3)

/-- Database path of `clearAllData`: DELETE every row of every collection. -/
def clearAllDB (_st : Store) : Bool × Store :=
  (true, emptyStore)

/-- The web fallback object returned by `addMeal` when SQLite is unavailable:
the input spread over a generated id, with `created_at`/`updated_at` defaulted. -/
structure MealWebAdd where
  id : String
  data : MealInput
  created_at : String
  updated_at : String
deriving Repr, DecidableEq

/-- The web fallback object returned by `updateMeal`: the input spread with a
fresh `updated_at`. -/
structure MealWebUpdate where
  data : MealInput
  updated_at : String
deriving Repr, DecidableEq

/-- The web fallback object returned by `updateWaterRecord`. -/
structure WaterWebUpdate where
  data : WaterInput
  created_at : String
deriving Repr, DecidableEq

/-- The web fallback object returned by `updateWeightRecord`. -/
structure WeightWebUpdate where
  data : WeightInput
  weight : Rat
  weight_kg : Rat
  created_at : String
deriving Repr, DecidableEq

/-- Result of `addMeal`: a stored row read back from SQLite, or the pass-through
web fallback. -/
inductive MealAddResult where
  | stored (r : MealRow)
  | web (w : MealWebAdd)
deriving Repr, DecidableEq

/-- Result of `updateMeal`. -/
inductive MealUpdateResult where
  | stored (r : MealRow)
  | web (w : MealWebUpdate)
deriving Repr, DecidableEq

/-- Result of `addWaterRecord` (the web fallback builds the same shape as a row). -/
inductive WaterAddResult where
  | stored (r : WaterRow)
  | web (r : WaterRow)
deriving Repr, DecidableEq

/-- Result of `updateWaterRecord`. -/
inductive WaterUpdateResult where
  | stored (r : WaterRow)
  | web (w : WaterWebUpdate)
deriving Repr, DecidableEq

/-- Result of `addWeightRecord`. -/
inductive WeightAddResult where
  | stored (r : WeightRecordOut)
  | web (r : WeightRecordOut)
deriving Repr, DecidableEq

/-- Result of `updateWeightRecord`. -/
inductive WeightUpdateResult where
  | stored (r : WeightRecordOut)
  | web (w : WeightWebUpdate)
deriving Repr, DecidableEq

/-- `loadMeals`: on web (`db = none`) SQLite is unavailable and the empty array
is returned; otherwise the database path runs. -/
def loadMeals (db : Option Store) (startDateStr : String) (userId : Option String) :
    Except DBError (List MealRow) :=
  match db with
  | none => .ok []
  | some st => .ok (loadMealsDB st startDateStr userId)

/-- `addMeal` with its web pass-through fallback. -/
def addMeal (db : Option Store) (d : MealInput) (epochMs : Int) (rand now : String) :
    Except DBError MealAddResult × Option Store :=
  match db with
  | none =>
    (.ok (.web
      { id := d.id.getD (genRecordId "meal" epochMs rand)
        data := d
        created_at := jsOrStr d.created_at now
        updated_at := jsOrStr d.updated_at now }), none)
  | some st =>
    match addMealDB st d (genRecordId "meal" epochMs rand) now with
    | .error e => (.error e, some st)
    | .ok (r, st') => (.ok (.stored r), some st')

/-- `updateMeal` with its web pass-through fallback. -/
def updateMeal (db : Option Store) (d : MealInput) (now : String) :
    Except DBError MealUpdateResult × Option Store :=
  match db with
  | none => (.ok (.web { data := d, updated_at := now }), none)
  | some st =>
    match updateMealDB st d now with
    | (.error e, st') => (.error e, some st')
    | (.ok r, st') => (.ok (.stored r), some st')

/-- `deleteMeal`: returns `true` also when SQLite is unavailable. -/
def deleteMeal (db : Option Store) (mealId : String) :
    Except DBError Bool × Option Store :=
  match db with
  | none => (.ok true, none)
  | some st => (.ok (deleteMealDB st mealId).1, some (deleteMealDB st mealId).2)

/-- `loadWaterRecords` with the web fallback. -/
def loadWaterRecords (db : Option Store) (startDateStr : String) (userId : Option String) :
    Except DBError (List WaterRow) :=
  match db with
  | none => .ok []
  | some st => .ok (loadWaterRecordsDB st startDateStr userId)

/-- `addWaterRecord` with its web fallback (which builds the same record shape
without touching storage). -/
def addWaterRecord (db : Option Store) (d : WaterInput) (epochMs : Int) (rand now : String) :
    Except DBError WaterAddResult × Option Store :=
  match db with
  | none => (.ok (.web (applyWaterDefaults d (genRecordId "water" epochMs rand) now)), none)
  | some st =>
    match addWaterRecordDB st d (genRecordId "water" epochMs rand) now with
    | .error e => (.error e, some st)
    | .ok (r, st') => (.ok (.stored r), some st')

/-- `updateWaterRecord` with its web pass-through fallback. -/
def updateWaterRecord (db : Option Store) (d : WaterInput) (now : String) :
    Except DBError WaterUpdateResult × Option Store :=
  match db with
  | none => (.ok (.web { data := d, created_at := jsOrStr d.created_at now }), none)
  | some st =>
    match updateWaterRecordDB st d with
    | (.error e, st') => (.error e, some st')
    | (.ok r, st') => (.ok (.stored r), some st')

/-- `deleteWaterRecord`. -/
def deleteWaterRecord (db : Option Store) (recordId : String) :
    Except DBError Bool × Option Store :=
  match db with
  | none => (.ok true, none)
  | some st => (.ok (deleteWaterRecordDB st recordId).1, some (deleteWaterRecordDB st recordId).2)

/-- `loadWeightRecords` with the web fallback. -/
def loadWeightRecords (db : Option Store) (startDateStr : String) (userId : Option String) :
    Except DBError (List WeightRecordOut) :=
  match db with
  | none => .ok []
  | some st => .ok (loadWeightRecordsDB st startDateStr userId)

/-- `addWeightRecord` with its web fallback. -/
def addWeightRecord (db : Option Store) (d : WeightInput) (epochMs : Int) (rand now : String) :
    Except DBError WeightAddResult × Option Store :=
  match db with
  | none =>
    (.ok (.web (weightRowToRecord (applyWeightDefaults d (genRecordId "weight" epochMs rand) now))), none)
  | some st =>
    match addWeightRecordDB st d (genRecordId "weight" epochMs rand) now with
    | .error e => (.error e, some st)
    | .ok (r, st') => (.ok (.stored r), some st')

/-- `updateWeightRecord` with its web pass-through fallback. -/
def updateWeightRecord (db : Option Store) (d : WeightInput) (now : String) :
    Except DBError WeightUpdateResult × Option Store :=
  match db with
  | none =>
    (.ok (.web
      { data := d
        weight := weightValue d
        weight_kg := weightValue d
        created_at := jsOrStr d.created_at now }), none)
  | some st =>
    match updateWeightRecordDB st d with
    | (.error e, st') => (.error e, some st')
    | (.ok r, st') => (.ok (.stored r), some st')

/-- `deleteWeightRecord`. -/
def deleteWeightRecord (db : Option Store) (recordId : String) :
    Except DBError Bool × Option Store :=
  match db with
  | none => (.ok true, none)
  | some st => (.ok (deleteWeightRecordDB st recordId).1, some (deleteWeightRecordDB st recordId).2)

/-- `exportAllData` has no web guard: with a `null` database handle the first
`database.getAllAsync` call is a TypeError. -/
def exportAllData (db : Option Store) (now : String) : Except DBError ExportDoc :=
  match db with
  | none => .error .typeError
  | some st => .ok (exportAllDB st now)

/-- `importAllData` has no web guard either; with a database the whole body runs
inside `withTransactionAsync`, so an error rolls the store back to its pre-call
state and success returns `true`. -/
def importAllData (db : Option Store) (doc : ImportDoc) (overwrite : Bool)
    (gen : Nat → String) (now : String) : Except DBError Bool × Option Store :=
  match db with
  | none => (.error .typeError, none)
  | some st =>
    match importBodyDB st doc overwrite gen now with
    | .error e => (.error e, some st)
    | .ok st' => (.ok true, some st')

/-- `clearAllData` has no web guard. -/
def clearAllData (db : Option Store) : Except DBError Bool × Option Store :=
  match db with
  | none => (.error .typeError, none)
  | some st => (.ok (clearAllDB st).1, some (clearAllDB st).2)

/-- The overall statistics object built by `calculateStats` in `MealProvider`. -/
structure MealStats where
  totalCalories : Int
  totalProtein : Rat
  totalFat : Rat
  totalCarbs : Rat
  averageCalories : Rat
deriving Repr, DecidableEq

/-- The `stats` portion of `calculateStats` in `MealProvider`: reduce-sums over
`meal.calories || 0` etc., and `averageCalories` guarded by `meals.length > 0`.
(The `periodStats` portion of the same function is date-bucketing and is not
needed by the claims.) -/
def computeMealStats (meals : List MealRow) : MealStats :=
  let totalCalories : Int := meals.foldl (fun s m => s + jsOrIntV m.calories 0) 0
  let totalProtein : Rat := meals.foldl (fun s m => s + jsOrRatV m.protein 0) 0
  let totalFat : Rat := meals.foldl (fun s m => s + jsOrRatV m.fat 0) 0
  let totalCarbs : Rat := meals.foldl (fun s m => s + jsOrRatV m.carbs 0) 0
  let averageCalories : Rat :=
    if 0 < meals.length then (totalCalories : Rat) / (meals.length : Rat) else 0
  { totalCalories := totalCalories
    totalProtein := totalProtein
    totalFat := totalFat
    totalCarbs := totalCarbs
    averageCalories := averageCalories }

/-- The statistics object built by `calculateStats` in `WeightProvider`. -/
structure WeightStats where
  weightChange : Rat
  progressPercentage : Rat
  averageWeight : Rat
deriving Repr, DecidableEq

/-- Placeholder record for the (unreachable) last-element default of a
non-empty sorted list. -/
def dummyWeightRecord : WeightRecordOut :=
  { id := "", user_id := none, weight := 0, weight_kg := 0, record_date := "", created_at := "" }

/-- The latest-by-date record as selected by `calculateStats` in
`WeightProvider`: the last record after sorting ascending by `record_date`
(the `sortedRecords[sortedRecords.length - 1]` expression of the source). -/
def latestRecordOf (records : List WeightRecordOut) : WeightRecordOut :=
  (records.insertionSort fun a b => sqliteTextLe a.record_date b.record_date = true).getLastD
    dummyWeightRecord

/-- The current weight used by `calculateStats` in `WeightProvider`. -/
def currentWeightOf (records : List WeightRecordOut) : Rat :=
  (latestRecordOf records).weight

/-- `calculateStats` in `WeightProvider`: for an empty collection all-zero
change/progress with the state's current weight as average; otherwise the
current weight is the latest-by-date record's `weight`, and
`progressPercentage = min((|initial-current| / |initial-target|) * 100, 100)`
when `|initial-target| > 0`, else `0`. -/
def computeWeightStats (records : List WeightRecordOut)
    (currentWeightState initialWeight targetWeight : Rat) : WeightStats :=
  if records.length = 0 then
    { weightChange := 0, progressPercentage := 0, averageWeight := currentWeightState }
  else
    let currentWeight := currentWeightOf records
    let weightChange := currentWeight - initialWeight
    let totalChange := |initialWeight - targetWeight|
    let currentChange := |initialWeight - currentWeight|
    let progressPercentage : Rat :=
      if 0 < totalChange then min ((currentChange / totalChange) * 100) 100 else 0
    let averageWeight := (records.foldl (fun s r => s + r.weight) 0) / (records.length : Rat)
    { weightChange := weightChange
      progressPercentage := progressPercentage
      averageWeight := averageWeight }

/-- The lockout window of the session guard: 5 minutes in milliseconds. -/
def LOCKOUT_TIME : Int := 5 * 60 * 1000

/-- The attempt limit of the session guard. -/
def MAX_ATTEMPTS : Nat := 5

/-- JS `ToInt32`: wrap an integer into the signed 32-bit range. -/
def toInt32 (n : Int) : Int :=
  (n + 2 ^ 31) % 2 ^ 32 - 2 ^ 31

/-- One step of `hashPin`: `hash = ((hash << 5) - hash) + charCode; hash &= hash`. -/
def hashPinStep (h : Int) (c : Char) : Int :=
  toInt32 (toInt32 (h * 32) - h + (c.toNat : Int))

/-- The deterministic (non-cryptographic) PIN hash of `AuthProvider`, returned
as its decimal string. -/
def hashPin (pin : String) : String :=
  toString (pin.data.foldl hashPinStep 0)

/-- The persisted session-guard state: the stored PIN hash (SecureStore) and
the attempt counter and last-attempt timestamp (AsyncStorage; missing keys
parse as 0). -/
structure AuthStore where
  pinHash : Option String
  attempts : Nat
  lastAttempt : Int
deriving Repr, DecidableEq

/-- `checkLockout`: with `attempts >= MAX_ATTEMPTS` and the last failed attempt
less than `LOCKOUT_TIME` ago the guard is locked (state untouched); once the
cooldown has elapsed the persisted counters are removed. -/
def checkLockout (s : AuthStore) (now : Int) : Bool × AuthStore :=
  if MAX_ATTEMPTS ≤ s.attempts then
    if now - s.lastAttempt < LOCKOUT_TIME then (true, s)
    else (false, { s with attempts := 0, lastAttempt := 0 })
  else (false, s)

/-- The `/^\d+$/` test of `setPin`. -/
def jsDigitsTest (s : String) : Bool :=
  s.length != 0 && s.data.all (fun c => c.isDigit)

/-- `setPin`: validates digits-only and length 4-6 and pin = confirmation, then
stores the hash and clears the attempt counters; validation failures leave the
stored state untouched. -/
def setPin (s : AuthStore) (pin confirmPin : String) : Bool × AuthStore :=
  if pin.length < 4 || 6 < pin.length then (false, s)
  else if !(jsDigitsTest pin) then (false, s)
  else if pin != confirmPin then (false, s)
  else (true, { pinHash := some (hashPin pin), attempts := 0, lastAttempt := 0 })

/-- `verifyPin`: reject while locked (persisted state untouched); with no stored
hash fail; on a hash mismatch increment the persisted attempt counter and stamp
the attempt time; on a match clear the counters and authenticate. -/
def verifyPin (s : AuthStore) (pin : String) (now : Int) : Bool × AuthStore :=
  match checkLockout s now with
  | (true, s1) => (false, s1)
  | (false, s1) =>
    match s1.pinHash with
    | none => (false, s1)
    | some saved =>
      if hashPin pin != saved then
        (false, { s1 with attempts := s1.attempts + 1, lastAttempt := now })
      else
        (true, { s1 with attempts := 0, lastAttempt := 0 })

/-- Decidable equality for `Except` results (both components decidable). -/
instance {e a : Type} [DecidableEq e] [DecidableEq a] : DecidableEq (Except e a) := fun x y =>
  match x, y with
  | .error u, .error v =>
    if h : u = v then isTrue (by rw [h]) else isFalse (by intro hc; cases hc; exact h rfl)
  | .error _, .ok _ => isFalse (by intro hc; cases hc)
  | .ok _, .error _ => isFalse (by intro hc; cases hc)
  | .ok u, .ok v =>
    if h : u = v then isTrue (by rw [h]) else isFalse (by intro hc; cases hc; exact h rfl)

/-- A sequence of `verifyPin` calls, threading the persisted guard state. -/
def verifyRun (s : AuthStore) : List (String × Int) → AuthStore
  | [] => s
  | (p, t) :: rest => verifyRun (verifyPin s p t).2 rest

/-- A fixed call timestamp used by the concrete witnesses below. -/
def tC : String := "2025-06-01T12:00:00.000Z"

/-- Concrete meal input for the witnesses. -/
def mealInC : MealInput :=
  { id := some "m1", title := some "Oatmeal", category := some "breakfast",
    calories := some 300, protein := some 10, fat := some 5, carbs := some 40,
    meal_time := some "2025-01-01T08:00:00Z" }

/-- The row the witness meal input persists as. -/
def mealRowC : MealRow := applyMealDefaults mealInC (genRecordId "meal" 17 "rnd") tC

/-- The store after adding the witness meal to an empty store. -/
def mealStoreC : Store := { emptyStore with meals := [mealRowC] }

/-- Concrete water input for the witnesses. -/
def waterInC : WaterInput :=
  { id := some "w1", amount_ml := some 250, record_date := some "2025-01-01" }

/-- The row the witness water input persists as. -/
def waterRowC : WaterRow := applyWaterDefaults waterInC (genRecordId "water" 18 "rnd") tC

/-- The store after adding the witness water record to an empty store. -/
def waterStoreC : Store := { emptyStore with water := [waterRowC] }

/-- Concrete weight input for the witnesses. -/
def weightInC : WeightInput :=
  { id := some "g1", weight := some 75, record_date := some "2025-01-01" }

/-- The row the witness weight input persists as. -/
def weightRowC : WeightRow := applyWeightDefaults weightInC (genRecordId "weight" 19 "rnd") tC

/-- The store after adding the witness weight record to an empty store. -/
def weightStoreC : Store := { emptyStore with weight := [weightRowC] }

/-- An import document whose meals collide on the primary key, so that a
merge-style call of importAllData fails partway through. -/
def dupDoc : ImportDoc := { meals := some [mealInC, mealInC] }

/-- A single concrete weight record at 75 kg (the worked example of the spec). -/
def w75ex : WeightRecordOut :=
  { id := "g2", user_id := none, weight := 75, weight_kg := 75,
    record_date := "2025-01-01", created_at := "t" }

/-- A store holding two rows per collection (ids "a" and "b"), used by the
delete witnesses. -/
def delStoreC : Store :=
  { meals :=
      [applyMealDefaults { id := some "a", meal_time := some "2025-01-02T00:00:00Z" } "g" tC,
       applyMealDefaults { id := some "b", meal_time := some "2025-01-03T00:00:00Z" } "g" tC]
    water :=
      [applyWaterDefaults { id := some "a", record_date := some "2025-01-02" } "g" tC,
       applyWaterDefaults { id := some "b", record_date := some "2025-01-03" } "g" tC]
    weight :=
      [applyWeightDefaults { id := some "a", weight := some 80, record_date := some "2025-01-02" } "g" tC,
       applyWeightDefaults { id := some "b", weight := some 81, record_date := some "2025-01-03" } "g" tC]
    settings := [] }

theorem jsOrIntV_zero (x : Int) : jsOrIntV x 0 = x := by
  unfold jsOrIntV; split <;> simp_all

theorem jsOrRatV_zero (x : Rat) : jsOrRatV x 0 = x := by
  unfold jsOrRatV; split <;> simp_all

/-- The read-back mapping of the meal operations changes no field. -/
theorem mealRowToRecord_eq (r : MealRow) : mealRowToRecord r = r := by
  simp [mealRowToRecord, jsOrIntV_zero, jsOrRatV_zero]

theorem map_eq_self_of_id {α : Type} (f : α → α) (h : ∀ a, f a = a) :
    ∀ l : List α, l.map f = l
  | [] => rfl
  | a :: t => by simp [h a, map_eq_self_of_id f h t]

theorem find_append_singleton {α : Type} (p : α → Bool) (a : α) :
    ∀ l : List α, l.any p = false → (l ++ [a]).find? p = if p a then some a else none := by
  intro l
  induction l with
  | nil =>
    intro _
    simp only [List.nil_append, List.find?]
    cases h : p a <;> simp [h]
  | cons b t ih =>
    intro h
    simp only [List.any_cons, Bool.or_eq_false_iff] at h
    simp only [List.cons_append, List.find?_cons, h.1]
    exact ih h.2

theorem filter_idempotent {α : Type} (p : α → Bool) :
    ∀ l : List α, (l.filter p).filter p = l.filter p := by
  intro l
  induction l with
  | nil => rfl
  | cons a t ih =>
    by_cases h : p a = true
    · simp [List.filter_cons, h, ih]
    · simp only [Bool.not_eq_true] at h
      simp [List.filter_cons, h, ih]

theorem foldl_add_map {M α : Type} [AddCommMonoid M] (f : α → M) :
    ∀ (l : List α) (a : M), l.foldl (fun s x => s + f x) a = a + (l.map f).sum
  | [], a => by simp
  | x :: t, a => by
    simp only [List.foldl_cons, List.map_cons, List.sum_cons]
    rw [foldl_add_map f t (a + f x), add_assoc]

/-- A successful `addMeal` INSERT appends exactly the defaulted row, returns it,
and touches no other collection. -/
theorem addMealDB_ok (st : Store) (d : MealInput) (genId now : String) (rec : MealRow)
    (st' : Store) (h : addMealDB st d genId now = .ok (rec, st')) :
    rec = applyMealDefaults d genId now ∧
    st'.meals = st.meals ++ [applyMealDefaults d genId now] ∧
    st'.water = st.water ∧ st'.weight = st.weight ∧ st'.settings = st.settings ∧
    st.meals.any (fun r => r.id == (applyMealDefaults d genId now).id) = false := by
  simp only [addMealDB] at h
  split at h
  · simp at h
  next hany =>
    simp only [Bool.not_eq_true] at hany
    rw [find_append_singleton _ _ _ hany] at h
    simp only [beq_self_eq_true, if_true, mealRowToRecord_eq, Except.ok.injEq,
      Prod.mk.injEq] at h
    obtain ⟨hrec, hst⟩ := h
    subst hst
    exact ⟨hrec.symm, rfl, rfl, rfl, rfl, hany⟩

theorem addWaterRecordDB_ok (st : Store) (d : WaterInput) (genId now : String)
    (rec : WaterRow) (st' : Store) (h : addWaterRecordDB st d genId now = .ok (rec, st')) :
    rec = applyWaterDefaults d genId now ∧
    st'.water = st.water ++ [applyWaterDefaults d genId now] ∧
    st'.meals = st.meals ∧ st'.weight = st.weight ∧ st'.settings = st.settings := by
  simp only [addWaterRecordDB] at h
  split at h
  · simp at h
  next hany =>
    simp only [Bool.not_eq_true] at hany
    rw [find_append_singleton _ _ _ hany] at h
    simp only [beq_self_eq_true, if_true, Except.ok.injEq, Prod.mk.injEq] at h
    obtain ⟨hrec, hst⟩ := h
    subst hst
    exact ⟨hrec.symm, rfl, rfl, rfl, rfl⟩

theorem addWeightRecordDB_ok (st : Store) (d : WeightInput) (genId now : String)
    (rec : WeightRecordOut) (st' : Store)
    (h : addWeightRecordDB st d genId now = .ok (rec, st')) :
    rec = weightRowToRecord (applyWeightDefaults d genId now) ∧
    st'.weight = st.weight ++ [applyWeightDefaults d genId now] ∧
    st'.meals = st.meals ∧ st'.water = st.water ∧ st'.settings = st.settings := by
  simp only [addWeightRecordDB] at h
  split at h
  · simp at h
  next hany =>
    simp only [Bool.not_eq_true] at hany
    rw [find_append_singleton _ _ _ hany] at h
    simp only [beq_self_eq_true, if_true, Except.ok.injEq, Prod.mk.injEq] at h
    obtain ⟨hrec, hst⟩ := h
    subst hst
    exact ⟨hrec.symm, rfl, rfl, rfl, rfl⟩

/-- Any stored meal row whose time the query window covers appears in the
`loadMeals` result (no user filter). -/
theorem mem_loadMealsDB (st : Store) (startDateStr : String) (r : MealRow)
    (hr : r ∈ st.meals) (hcov : sqliteTextLe startDateStr r.meal_time = true) :
    r ∈ loadMealsDB st startDateStr none := by
  unfold loadMealsDB
  rw [map_eq_self_of_id _ mealRowToRecord_eq]
  rw [List.mem_insertionSort]
  simp [List.mem_filter, hr, hcov]

theorem mem_loadWaterRecordsDB (st : Store) (startDateStr : String) (r : WaterRow)
    (hr : r ∈ st.water) (hcov : sqliteTextLe startDateStr r.record_date = true) :
    r ∈ loadWaterRecordsDB st startDateStr none := by
  unfold loadWaterRecordsDB
  rw [List.mem_insertionSort]
  simp [List.mem_filter, hr, hcov]

theorem mem_loadWeightRecordsDB (st : Store) (startDateStr : String) (r : WeightRow)
    (hr : r ∈ st.weight) (hcov : sqliteTextLe startDateStr r.record_date = true) :
    weightRowToRecord r ∈ loadWeightRecordsDB st startDateStr none := by
  unfold loadWeightRecordsDB
  refine List.mem_map_of_mem weightRowToRecord ?_
  rw [List.mem_insertionSort]
  simp [List.mem_filter, hr, hcov]

/-- Claim C2: every valid meal/water/weight record passed to addX is inserted
(with an id of the form prefix_epochMs_random generated when missing and
created_at/updated_at stamped to now when absent), the returned record is the
row read back from storage, and a subsequent loadX whose period covers the
record's time returns a row whose fields equal the input with defaults
applied. -/
theorem addX_loadX_roundtrip :
    (∀ (st : Store) (d : MealInput) (epochMs : Int) (rand now startDateStr : String)
        (rec : MealRow) (st' : Store),
        addMealDB st d (genRecordId "meal" epochMs rand) now = .ok (rec, st') →
        sqliteTextLe startDateStr rec.meal_time = true →
        rec = applyMealDefaults d (genRecordId "meal" epochMs rand) now ∧
        (d.id = none → rec.id = genRecordId "meal" epochMs rand) ∧
        (d.created_at = none → rec.created_at = now) ∧
        (d.updated_at = none → rec.updated_at = now) ∧
        st'.meals.find? (fun r => r.id == rec.id) = some rec ∧
        rec ∈ loadMealsDB st' startDateStr none) ∧
    (∀ (st : Store) (d : WaterInput) (epochMs : Int) (rand now startDateStr : String)
        (rec : WaterRow) (st' : Store),
        addWaterRecordDB st d (genRecordId "water" epochMs rand) now = .ok (rec, st') →
        sqliteTextLe startDateStr rec.record_date = true →
        rec = applyWaterDefaults d (genRecordId "water" epochMs rand) now ∧
        (d.id = none → rec.id = genRecordId "water" epochMs rand) ∧
        (d.created_at = none → rec.created_at = now) ∧
        st'.water.find? (fun r => r.id == rec.id) = some rec ∧
        rec ∈ loadWaterRecordsDB st' startDateStr none) ∧
    (∀ (st : Store) (d : WeightInput) (epochMs : Int) (rand now startDateStr : String)
        (rec : WeightRecordOut) (st' : Store),
        addWeightRecordDB st d (genRecordId "weight" epochMs rand) now = .ok (rec, st') →
        sqliteTextLe startDateStr rec.record_date = true →
        rec = weightRowToRecord (applyWeightDefaults d (genRecordId "weight" epochMs rand) now) ∧
        (d.id = none → rec.id = genRecordId "weight" epochMs rand) ∧
        (d.created_at = none → rec.created_at = now) ∧
        st'.weight = st.weight ++ [applyWeightDefaults d (genRecordId "weight" epochMs rand) now] ∧
        rec ∈ loadWeightRecordsDB st' startDateStr none) := by
  refine ⟨?_, ?_, ?_⟩
  · intro st d epochMs rand now startDateStr rec st' hadd hcov
    obtain ⟨hrec, hmeals, _, _, _, hany⟩ := addMealDB_ok _ _ _ _ _ _ hadd
    subst hrec
    refine ⟨rfl, ?_, fun _ => rfl, fun _ => rfl, ?_, ?_⟩
    · intro hid; simp [applyMealDefaults, jsOrStr, hid]
    · rw [hmeals, find_append_singleton _ _ _ hany]; simp
    · refine mem_loadMealsDB _ _ _ ?_ hcov
      rw [hmeals]
      exact List.mem_append_right _ (List.mem_singleton_self _)
  · intro st d epochMs rand now startDateStr rec st' hadd hcov
    simp only [addWaterRecordDB] at hadd
    split at hadd
    · simp at hadd
    next hany =>
      simp only [Bool.not_eq_true] at hany
      rw [find_append_singleton _ _ _ hany] at hadd
      simp only [beq_self_eq_true, if_true, Except.ok.injEq, Prod.mk.injEq] at hadd
      obtain ⟨hrec, hst⟩ := hadd
      subst hst
      subst hrec
      refine ⟨rfl, ?_, fun _ => rfl, ?_, ?_⟩
      · intro hid; simp [applyWaterDefaults, jsOrStr, hid]
      · rw [find_append_singleton _ _ _ hany]; simp
      · refine mem_loadWaterRecordsDB _ _ _ ?_ hcov
        exact List.mem_append_right _ (List.mem_singleton_self _)
  · intro st d epochMs rand now startDateStr rec st' hadd hcov
    obtain ⟨hrec, hweight, _, _, _⟩ := addWeightRecordDB_ok _ _ _ _ _ _ hadd
    subst hrec
    refine ⟨rfl, ?_, fun _ => rfl, hweight, ?_⟩
    · intro hid; simp [weightRowToRecord, applyWeightDefaults, jsOrStr, hid]
    · refine mem_loadWeightRecordsDB _ _ _ ?_ hcov
      rw [hweight]
      exact List.mem_append_right _ (List.mem_singleton_self _)

/-- Witness for C2 at concrete inputs: the add succeeds on the empty store and
the added record is returned by the covering load. -/
theorem addX_loadX_roundtrip_witness :
    mealRowC ∈ loadMealsDB mealStoreC "2020-01-01" none ∧
    waterRowC ∈ loadWaterRecordsDB waterStoreC "2020-01-01" none ∧
    weightRowToRecord weightRowC ∈ loadWeightRecordsDB weightStoreC "2020-01-01" none := by
  refine ⟨?_, ?_, ?_⟩
  · exact (addX_loadX_roundtrip.1 emptyStore mealInC 17 "rnd" tC "2020-01-01"
      mealRowC mealStoreC (by decide) (by decide)).2.2.2.2.2
  · exact (addX_loadX_roundtrip.2.1 emptyStore waterInC 18 "rnd" tC "2020-01-01"
      waterRowC waterStoreC (by decide) (by decide)).2.2.2.2
  · exact (addX_loadX_roundtrip.2.2 emptyStore weightInC 19 "rnd" tC "2020-01-01"
      (weightRowToRecord weightRowC) weightStoreC (by decide) (by decide)).2.2.2.2

/-- Claim C1: the whole import (clearing plus insertions) runs in one
transaction: whenever the body fails the caller-visible store is exactly the
pre-call store, and success returns true. -/
theorem importAll_atomic (st : Store) (doc : ImportDoc) (overwrite : Bool)
    (gen : Nat → String) (now : String) :
    (∀ e, (importAllData (some st) doc overwrite gen now).1 = .error e →
        (importAllData (some st) doc overwrite gen now).2 = some st) ∧
    (∀ b, (importAllData (some st) doc overwrite gen now).1 = .ok b → b = true) := by
  unfold importAllData
  cases hbody : importBodyDB st doc overwrite gen now <;> simp [hbody]

/-- Witness for C1: a merge import whose second meal collides on the primary
key fails mid-transaction and leaves the (empty) store untouched. -/
theorem importAll_atomic_witness :
    (importAllData (some emptyStore) dupDoc false (fun _ => "") tC).1 =
      .error .uniqueViolation ∧
    (importAllData (some emptyStore) dupDoc false (fun _ => "") tC).2 = some emptyStore := by
  refine ⟨by decide, ?_⟩
  exact (importAll_atomic emptyStore dupDoc false (fun _ => "") tC).1 .uniqueViolation (by decide)

theorem map_ite_id {α : Type} (p : α → Bool) (upd : α → α) :
    ∀ l : List α, (∀ a ∈ l, p a = false) →
      (l.map fun a => if p a then upd a else a) = l
  | [], _ => rfl
  | a :: t, h => by
    have ha := h a (List.mem_cons_self a t)
    simp only [List.map_cons, ha, Bool.false_eq_true, if_false, List.cons.injEq, true_and]
    exact map_ite_id p upd t fun b hb => h b (List.mem_cons_of_mem a hb)

theorem map_congr_fun {α β : Type} (f g : α → β) (h : ∀ a, f a = g a) :
    ∀ l : List α, l.map f = l.map g
  | [] => rfl
  | a :: t => by simp only [List.map_cons, h a, map_congr_fun f g h t]

/-- An `updateMeal` whose id matches no stored row leaves the store unchanged
and ends in the TypeError of the `null` read-back. -/
theorem updateMealDB_missing (st : Store) (d : MealInput) (now : String)
    (h : ∀ r ∈ st.meals, some r.id ≠ d.id) :
    updateMealDB st d now = (.error .typeError, st) := by
  unfold updateMealDB
  cases hd : d.id with
  | none => rfl
  | some i =>
    have key : ∀ r ∈ st.meals, (fun r : MealRow => r.id == i) r = false := by
      intro r hr
      have := h r hr
      rw [hd] at this
      simp only [beq_eq_false_iff_ne, ne_eq]
      intro he
      exact this (by rw [he])
    simp only
    rw [map_ite_id _ _ _ key]
    rw [List.find?_eq_none.mpr fun r hr => by simp [key r hr]]

/-- An `updateWeightRecord` whose id matches no stored row leaves the store
unchanged and ends in the TypeError of the `null` read-back. -/
theorem updateWeightRecordDB_missing (st : Store) (d : WeightInput)
    (h : ∀ r ∈ st.weight, some r.id ≠ d.id) :
    updateWeightRecordDB st d = (.error .typeError, st) := by
  unfold updateWeightRecordDB
  cases hd : d.id with
  | none => rfl
  | some i =>
    have key : st.weight.any (fun r => r.id == i) = false := by
      rw [List.any_eq_false]
      intro r hr
      have := h r hr
      rw [hd] at this
      simp only [beq_eq_false_iff_ne, ne_eq, Bool.not_eq_true]
      intro he
      exact this (by rw [he])
    simp only [key, Bool.false_eq_true, if_false]

/-- Claim C3 counterexample: `updateMeal` on an id that matches no existing row
raises an error (the `null` read-back) instead of returning a row. -/
theorem update_missing_counterexample :
    (updateMealDB emptyStore { id := some "m1", title := some "T" } tC).1 =
      .error .typeError := by decide

/-- Claim C3 (amended): an updateX call whose id matches no existing row is a
no-op on the store (the UPDATE matches nothing), but instead of returning a
row it raises an error when the read-back of the missing row comes back null. -/
theorem update_missing_id_noop (st : Store) (d : MealInput) (dg : WeightInput) (now : String)
    (hm : ∀ r ∈ st.meals, some r.id ≠ d.id)
    (hg : ∀ r ∈ st.weight, some r.id ≠ dg.id) :
    (updateMealDB st d now).1 = .error .typeError ∧
    (updateMealDB st d now).2 = st ∧
    (updateWeightRecordDB st dg).1 = .error .typeError ∧
    (updateWeightRecordDB st dg).2 = st := by
  rw [updateMealDB_missing st d now hm, updateWeightRecordDB_missing st dg hg]
  exact ⟨rfl, rfl, rfl, rfl⟩

/-- Witness for the amended C3 on the empty store. -/
theorem update_missing_id_noop_witness :
    (updateMealDB emptyStore { id := some "m2", title := some "T" } tC).2 = emptyStore ∧
    (updateWeightRecordDB emptyStore { id := some "g9", weight := some 70 }).2 = emptyStore := by
  have h := update_missing_id_noop emptyStore { id := some "m2", title := some "T" }
    { id := some "g9", weight := some 70 } tC (by intro r hr; cases hr) (by intro r hr; cases hr)
  exact ⟨h.2.1, h.2.2.2⟩

/-- Claim C9: update operations rewrite only the mutable fields (plus
updated_at for meals); every stored row keeps its id and its created_at, for
meals, water records and weight records alike (whether or not the update's id
matched). -/
theorem updateX_preserves_created_at (st : Store) (d : MealInput) (dw : WaterInput)
    (dg : WeightInput) (now : String) :
    ((updateMealDB st d now).2).meals.map (fun r => (r.id, r.created_at)) =
      st.meals.map (fun r => (r.id, r.created_at)) ∧
    ((updateWaterRecordDB st dw).2).water.map (fun r => (r.id, r.created_at)) =
      st.water.map (fun r => (r.id, r.created_at)) ∧
    ((updateWeightRecordDB st dg).2).weight.map (fun r => (r.id, r.created_at)) =
      st.weight.map (fun r => (r.id, r.created_at)) := by
  refine ⟨?_, ?_, ?_⟩
  · unfold updateMealDB
    cases hd : d.id with
    | none => rfl
    | some i =>
      simp only
      split <;>
      · rw [List.map_map]
        refine map_congr_fun _ _ (fun r => ?_) st.meals
        by_cases h : (r.id == i) = true <;> simp [Function.comp, h]
  · unfold updateWaterRecordDB
    cases hd : dw.id with
    | none => rfl
    | some i =>
      simp only
      split
      · split
        · rfl
        · split <;>
          · rw [List.map_map]
            refine map_congr_fun _ _ (fun r => ?_) st.water
            by_cases h : (r.id == i) = true <;> simp [Function.comp, h]
      · rfl
  · unfold updateWeightRecordDB
    cases hd : dg.id with
    | none => rfl
    | some i =>
      simp only
      split
      · split
        · rfl
        · split <;>
          · rw [List.map_map]
            refine map_congr_fun _ _ (fun r => ?_) st.weight
            by_cases h : (r.id == i) = true <;> simp [Function.comp, h]
      · rfl

/-- Claim C4 counterexample: with the database handle unavailable (`none`),
`exportAllData` does not return a structurally valid result; it throws the
TypeError of dereferencing the null handle. -/
theorem export_unavailable_counterexample :
    exportAllData none tC = .error .typeError := rfl

/-- Claim C4 (amended): when the embedded store is unavailable every per-record
CRUD operation (loadX, addX, updateX, deleteX) returns a structurally valid
empty or pass-through result without throwing, but `exportAllData`,
`importAllData` and `clearAllData` have no such guard and throw the TypeError
of the null handle. -/
theorem unavailable_store_behaviour (startDateStr now : String) (uid : Option String)
    (d : MealInput) (dw : WaterInput) (dg : WeightInput) (i : String)
    (epochMs : Int) (rand : String) (doc : ImportDoc) (overwrite : Bool)
    (gen : Nat → String) :
    loadMeals none startDateStr uid = .ok [] ∧
    loadWaterRecords none startDateStr uid = .ok [] ∧
    loadWeightRecords none startDateStr uid = .ok [] ∧
    addMeal none d epochMs rand now =
      (.ok (.web
        { id := d.id.getD (genRecordId "meal" epochMs rand)
          data := d
          created_at := jsOrStr d.created_at now
          updated_at := jsOrStr d.updated_at now }), none) ∧
    updateMeal none d now = (.ok (.web { data := d, updated_at := now }), none) ∧
    deleteMeal none i = (.ok true, none) ∧
    addWaterRecord none dw epochMs rand now =
      (.ok (.web (applyWaterDefaults dw (genRecordId "water" epochMs rand) now)), none) ∧
    updateWaterRecord none dw now =
      (.ok (.web { data := dw, created_at := jsOrStr dw.created_at now }), none) ∧
    deleteWaterRecord none i = (.ok true, none) ∧
    addWeightRecord none dg epochMs rand now =
      (.ok (.web (weightRowToRecord
        (applyWeightDefaults dg (genRecordId "weight" epochMs rand) now))), none) ∧
    updateWeightRecord none dg now =
      (.ok (.web
        { data := dg
          weight := weightValue dg
          weight_kg := weightValue dg
          created_at := jsOrStr dg.created_at now }), none) ∧
    deleteWeightRecord none i = (.ok true, none) ∧
    exportAllData none now = .error .typeError ∧
    importAllData none doc overwrite gen now = (.error .typeError, none) ∧
    clearAllData none = (.error .typeError, none) :=
  ⟨rfl, rfl, rfl, rfl, rfl, rfl, rfl, rfl, rfl, rfl, rfl, rfl, rfl, rfl, rfl⟩

/-- Claim C6: `computeMealStats` returns the arithmetic sums of calories,
protein, fat and carbs over the whole input and the average
totalCalories/count (0 for an empty input), with all-zero stats and no
division by zero on the empty list. -/
theorem computeMealStats_correct (meals : List MealRow) :
    (computeMealStats meals).totalCalories = (meals.map (fun m => m.calories)).sum ∧
    (computeMealStats meals).totalProtein = (meals.map (fun m => m.protein)).sum ∧
    (computeMealStats meals).totalFat = (meals.map (fun m => m.fat)).sum ∧
    (computeMealStats meals).totalCarbs = (meals.map (fun m => m.carbs)).sum ∧
    (computeMealStats meals).averageCalories =
      (if meals.length = 0 then 0
       else ((meals.map (fun m => m.calories)).sum : Rat) / (meals.length : Rat)) ∧
    computeMealStats [] =
      { totalCalories := 0, totalProtein := 0, totalFat := 0, totalCarbs := 0,
        averageCalories := 0 } := by
  have hcal : (computeMealStats meals).totalCalories = (meals.map (fun m => m.calories)).sum := by
    simp only [computeMealStats]
    rw [show (fun (s : Int) (m : MealRow) => s + jsOrIntV m.calories 0) =
        (fun (s : Int) (m : MealRow) => s + m.calories) from funext fun s => funext fun m => by
          rw [jsOrIntV_zero]]
    rw [foldl_add_map (fun m : MealRow => m.calories) meals 0, zero_add]
  refine ⟨hcal, ?_, ?_, ?_, ?_, by simp [computeMealStats]⟩
  · simp only [computeMealStats]
    rw [show (fun (s : Rat) (m : MealRow) => s + jsOrRatV m.protein 0) =
        (fun (s : Rat) (m : MealRow) => s + m.protein) from funext fun s => funext fun m => by
          rw [jsOrRatV_zero]]
    rw [foldl_add_map (fun m : MealRow => m.protein) meals 0, zero_add]
  · simp only [computeMealStats]
    rw [show (fun (s : Rat) (m : MealRow) => s + jsOrRatV m.fat 0) =
        (fun (s : Rat) (m : MealRow) => s + m.fat) from funext fun s => funext fun m => by
          rw [jsOrRatV_zero]]
    rw [foldl_add_map (fun m : MealRow => m.fat) meals 0, zero_add]
  · simp only [computeMealStats]
    rw [show (fun (s : Rat) (m : MealRow) => s + jsOrRatV m.carbs 0) =
        (fun (s : Rat) (m : MealRow) => s + m.carbs) from funext fun s => funext fun m => by
          rw [jsOrRatV_zero]]
    rw [foldl_add_map (fun m : MealRow => m.carbs) meals 0, zero_add]
  · rw [show (computeMealStats meals).averageCalories =
        (if 0 < meals.length then
          ((computeMealStats meals).totalCalories : Rat) / (meals.length : Rat)
         else 0) from rfl]
    rw [hcal]
    cases meals with
    | nil => simp
    | cons m t => simp [Nat.succ_ne_zero, Function.comp_def]

/-- Claim C8: deleteX returns true whether or not a row with the id exists,
deleting twice is idempotent (same result and same store), and a load right
after the delete never returns a record with the deleted id. -/
theorem deleteX_idempotent_and_absent (st : Store) (i : String) :
    (deleteMealDB st i).1 = true ∧
    deleteMealDB (deleteMealDB st i).2 i = deleteMealDB st i ∧
    (∀ startDateStr uid r,
      r ∈ loadMealsDB (deleteMealDB st i).2 startDateStr uid → r.id ≠ i) ∧
    (deleteWaterRecordDB st i).1 = true ∧
    deleteWaterRecordDB (deleteWaterRecordDB st i).2 i = deleteWaterRecordDB st i ∧
    (∀ startDateStr uid r,
      r ∈ loadWaterRecordsDB (deleteWaterRecordDB st i).2 startDateStr uid → r.id ≠ i) ∧
    (deleteWeightRecordDB st i).1 = true ∧
    deleteWeightRecordDB (deleteWeightRecordDB st i).2 i = deleteWeightRecordDB st i ∧
    (∀ startDateStr uid r,
      r ∈ loadWeightRecordsDB (deleteWeightRecordDB st i).2 startDateStr uid → r.id ≠ i) := by
  refine ⟨rfl, ?_, ?_, rfl, ?_, ?_, rfl, ?_, ?_⟩
  · simp [deleteMealDB, filter_idempotent]
  · intro startDateStr uid r hr
    unfold loadMealsDB at hr
    rw [map_eq_self_of_id _ mealRowToRecord_eq] at hr
    rw [List.mem_insertionSort] at hr
    have hr2 := (List.mem_filter.mp hr).1
    simp only [deleteMealDB] at hr2
    have hne := (List.mem_filter.mp hr2).2
    simpa using hne
  · simp [deleteWaterRecordDB, filter_idempotent]
  · intro startDateStr uid r hr
    unfold loadWaterRecordsDB at hr
    rw [List.mem_insertionSort] at hr
    have hr2 := (List.mem_filter.mp hr).1
    simp only [deleteWaterRecordDB] at hr2
    have hne := (List.mem_filter.mp hr2).2
    simpa using hne
  · simp [deleteWeightRecordDB, filter_idempotent]
  · intro startDateStr uid r hr
    unfold loadWeightRecordsDB at hr
    rw [List.mem_map] at hr
    obtain ⟨row, hrow, hmap⟩ := hr
    rw [List.mem_insertionSort] at hrow
    have hr2 := (List.mem_filter.mp hrow).1
    simp only [deleteWeightRecordDB] at hr2
    have hne := (List.mem_filter.mp hr2).2
    rw [show r.id = row.id from by rw [hmap.symm]; rfl]
    simpa using hne

/-- Witness for C8 on a two-row store: after deleting id "a" the surviving row
returned by the load has a different id. -/
theorem deleteX_idempotent_witness :
    (applyMealDefaults { id := some "b", meal_time := some "2025-01-03T00:00:00Z" } "g" tC).id ≠ "a" ∧
    (applyWaterDefaults { id := some "b", record_date := some "2025-01-03" } "g" tC).id ≠ "a" ∧
    (weightRowToRecord (applyWeightDefaults
      { id := some "b", weight := some 81, record_date := some "2025-01-03" } "g" tC)).id ≠ "a" := by
  obtain ⟨-, -, hm, -, -, hw, -, -, hg⟩ := deleteX_idempotent_and_absent delStoreC "a"
  exact ⟨hm "2020-01-01" none _ (by decide),
    hw "2020-01-01" none _ (by decide),
    hg "2020-01-01" none _ (by decide)⟩

theorem checkLockout_not_reached (s : AuthStore) (now : Int) (h : s.attempts < MAX_ATTEMPTS) :
    checkLockout s now = (false, s) := by
  unfold checkLockout
  rw [if_neg (Nat.not_le.mpr h)]

/-- A wrong PIN below the attempt limit increments the persisted counter and
stamps the attempt time. -/
theorem verifyPin_wrong (s : AuthStore) (pin : String) (now : Int) (h : String)
    (hp : s.pinHash = some h) (hw : hashPin pin ≠ h) (hatt : s.attempts < MAX_ATTEMPTS) :
    verifyPin s pin now =
      (false, { pinHash := some h, attempts := s.attempts + 1, lastAttempt := now }) := by
  obtain ⟨ph, att, la⟩ := s
  simp only at hp hatt
  subst hp
  unfold verifyPin
  rw [checkLockout_not_reached _ now hatt]
  simp only
  rw [if_pos (by simpa using hw)]

/-- While locked (limit reached, cooldown not elapsed) any call is rejected
with the persisted state untouched. -/
theorem verifyPin_locked (s : AuthStore) (pin : String) (now : Int)
    (hatt : MAX_ATTEMPTS ≤ s.attempts) (ht : now - s.lastAttempt < LOCKOUT_TIME) :
    verifyPin s pin now = (false, s) := by
  unfold verifyPin checkLockout
  rw [if_pos hatt, if_pos ht]

/-- After the cooldown has elapsed, a correct PIN succeeds and clears the
persisted attempt counter. -/
theorem verifyPin_correct_after (s : AuthStore) (pin : String) (now : Int) (h : String)
    (hp : s.pinHash = some h) (hc : hashPin pin = h)
    (hatt : MAX_ATTEMPTS ≤ s.attempts) (ht : LOCKOUT_TIME ≤ now - s.lastAttempt) :
    verifyPin s pin now = (true, { pinHash := some h, attempts := 0, lastAttempt := 0 }) := by
  obtain ⟨ph, att, la⟩ := s
  simp only at hp hatt ht
  subst hp
  unfold verifyPin checkLockout
  rw [if_pos hatt, if_neg (not_lt.mpr ht)]
  simp only
  rw [if_neg (by simp [hc])]

/-- With the guard not locked, a correct PIN succeeds and clears the counter. -/
theorem verifyPin_correct (s : AuthStore) (pin : String) (now : Int) (h : String)
    (hp : s.pinHash = some h) (hc : hashPin pin = h) (hatt : s.attempts < MAX_ATTEMPTS) :
    verifyPin s pin now = (true, { pinHash := some h, attempts := 0, lastAttempt := 0 }) := by
  obtain ⟨ph, att, la⟩ := s
  simp only at hp hatt
  subst hp
  unfold verifyPin
  rw [checkLockout_not_reached _ now hatt]
  simp only
  rw [if_neg (by simp [hc])]

/-- A run of wrong attempts below the limit adds its length to the persisted
counter and records the last attempt's timestamp. -/
theorem verifyRun_wrong (h : String) :
    ∀ (ws : List (String × Int)) (s : AuthStore),
      s.pinHash = some h → (∀ w ∈ ws, hashPin w.1 ≠ h) →
      s.attempts + ws.length ≤ MAX_ATTEMPTS →
      verifyRun s ws =
        { pinHash := some h, attempts := s.attempts + ws.length,
          lastAttempt := (ws.map Prod.snd).getLastD s.lastAttempt }
  | [], s, hp, _, _ => by
    obtain ⟨ph, att, la⟩ := s
    simp only at hp
    subst hp
    simp [verifyRun]
  | (p, t) :: rest, s, hp, hwrong, hbound => by
    have hatt : s.attempts < MAX_ATTEMPTS := by
      have := hbound
      simp only [List.length_cons] at this
      omega
    have hstep := verifyPin_wrong s p t h hp
      (hwrong (p, t) (List.mem_cons_self _ _)) hatt
    simp only [verifyRun, hstep]
    rw [verifyRun_wrong h rest
      { pinHash := some h, attempts := s.attempts + 1, lastAttempt := t } rfl
      (fun w hw => hwrong w (List.mem_cons_of_mem _ hw))
      (by simp only [List.length_cons] at hbound; simpa using by omega)]
    simp only [List.map_cons, List.getLastD_cons, List.length_cons]
    rw [show s.attempts + 1 + rest.length = s.attempts + (rest.length + 1) from by omega]

/-- Claim C5: five consecutive wrong verifyPin calls drive the persisted
counter to the limit with the cooldown anchored at the fifth (last failed)
attempt; a sixth call before the 5-minute cooldown elapses is rejected without
touching the persisted counter; once the cooldown has elapsed a correct PIN
succeeds and resets the counter to 0. -/
theorem pin_lockout_cycle (s0 : AuthStore) (h : String)
    (w1 w2 w3 w4 w5 : String) (t1 t2 t3 t4 t5 : Int)
    (hp : s0.pinHash = some h) (h0 : s0.attempts = 0)
    (hw1 : hashPin w1 ≠ h) (hw2 : hashPin w2 ≠ h) (hw3 : hashPin w3 ≠ h)
    (hw4 : hashPin w4 ≠ h) (hw5 : hashPin w5 ≠ h) :
    verifyRun s0 [(w1, t1), (w2, t2), (w3, t3), (w4, t4), (w5, t5)] =
      { pinHash := some h, attempts := MAX_ATTEMPTS, lastAttempt := t5 } ∧
    (∀ p t6, t6 - t5 < LOCKOUT_TIME →
      verifyPin { pinHash := some h, attempts := MAX_ATTEMPTS, lastAttempt := t5 } p t6 =
        (false, { pinHash := some h, attempts := MAX_ATTEMPTS, lastAttempt := t5 })) ∧
    (∀ p t7, hashPin p = h → LOCKOUT_TIME ≤ t7 - t5 →
      verifyPin { pinHash := some h, attempts := MAX_ATTEMPTS, lastAttempt := t5 } p t7 =
        (true, { pinHash := some h, attempts := 0, lastAttempt := 0 })) := by
  refine ⟨?_, ?_, ?_⟩
  · rw [verifyRun_wrong h _ s0 hp ?wrong ?bound]
    · simp [h0, MAX_ATTEMPTS, List.getLastD]
    case wrong =>
      intro w hw
      simp only [List.mem_cons, List.not_mem_nil, or_false] at hw
      rcases hw with rfl | rfl | rfl | rfl | rfl
      · exact hw1
      · exact hw2
      · exact hw3
      · exact hw4
      · exact hw5
    case bound => simp [h0, MAX_ATTEMPTS]
  · intro p t6 ht
    exact verifyPin_locked _ p t6 (Nat.le_refl _) ht
  · intro p t7 hc ht
    exact verifyPin_correct_after _ p t7 h rfl hc (Nat.le_refl _) ht

/-- Witness for C5 with PIN hash of "1234", five wrong "0000" attempts at
times 1..5, a rejected call at time 6 and a successful one at time 300005. -/
theorem pin_lockout_cycle_witness :
    verifyRun { pinHash := some (hashPin "1234"), attempts := 0, lastAttempt := 0 }
        [("0000", 1), ("0000", 2), ("0000", 3), ("0000", 4), ("0000", 5)] =
      { pinHash := some (hashPin "1234"), attempts := MAX_ATTEMPTS, lastAttempt := 5 } ∧
    verifyPin { pinHash := some (hashPin "1234"), attempts := MAX_ATTEMPTS, lastAttempt := 5 }
        "9999" 6 =
      (false, { pinHash := some (hashPin "1234"), attempts := MAX_ATTEMPTS, lastAttempt := 5 }) ∧
    verifyPin { pinHash := some (hashPin "1234"), attempts := MAX_ATTEMPTS, lastAttempt := 5 }
        "1234" 300005 =
      (true, { pinHash := some (hashPin "1234"), attempts := 0, lastAttempt := 0 }) := by
  have h := pin_lockout_cycle
    { pinHash := some (hashPin "1234"), attempts := 0, lastAttempt := 0 } (hashPin "1234")
    "0000" "0000" "0000" "0000" "0000" 1 2 3 4 5 rfl rfl
    (by decide) (by decide) (by decide) (by decide) (by decide)
  exact ⟨h.1, h.2.1 "9999" 6 (by decide), h.2.2 "1234" 300005 rfl (by decide)⟩

/-- Claim C10: for a digits-only PIN of length 4 to 6, setPin(pin, pin)
succeeds and stores the deterministic hash, and an immediate verifyPin with
the same PIN succeeds (same hash function at set and verify time) with the
attempt counter at 0. -/
theorem setPin_verifyPin_roundtrip (s : AuthStore) (pin : String) (now : Int)
    (hlen1 : 4 ≤ pin.length) (hlen2 : pin.length ≤ 6)
    (hdig : pin.data.all (fun c => c.isDigit) = true) :
    (setPin s pin pin).1 = true ∧
    (setPin s pin pin).2 =
      { pinHash := some (hashPin pin), attempts := 0, lastAttempt := 0 } ∧
    verifyPin (setPin s pin pin).2 pin now =
      (true, { pinHash := some (hashPin pin), attempts := 0, lastAttempt := 0 }) := by
  have h1 : ¬ pin.length < 4 := by omega
  have h2 : ¬ 6 < pin.length := by omega
  have h3 : jsDigitsTest pin = true := by
    unfold jsDigitsTest
    simp [hdig]
    omega
  have hset : setPin s pin pin =
      (true, { pinHash := some (hashPin pin), attempts := 0, lastAttempt := 0 }) := by
    unfold setPin
    simp [h1, h2, h3]
  refine ⟨by rw [hset], by rw [hset], ?_⟩
  rw [hset]
  exact verifyPin_correct { pinHash := some (hashPin pin), attempts := 0, lastAttempt := 0 }
    pin now (hashPin pin) rfl rfl (by simp [MAX_ATTEMPTS])

/-- Witness for C10 with the PIN "1234" from an arbitrary prior guard state. -/
theorem setPin_verifyPin_roundtrip_witness :
    (setPin { pinHash := none, attempts := 3, lastAttempt := 99 } "1234" "1234").1 = true ∧
    verifyPin (setPin { pinHash := none, attempts := 3, lastAttempt := 99 } "1234" "1234").2
        "1234" 0 =
      (true, { pinHash := some (hashPin "1234"), attempts := 0, lastAttempt := 0 }) := by
  have h := setPin_verifyPin_roundtrip { pinHash := none, attempts := 3, lastAttempt := 99 }
    "1234" 0 (by decide) (by decide) (by decide)
  exact ⟨h.1, h.2.2⟩

theorem textLeList_refl : ∀ x : List Char, textLeList x x = true
  | [] => rfl
  | a :: as => by
    unfold textLeList
    simp [Nat.lt_irrefl, textLeList_refl as]

theorem textLeList_total : ∀ x y : List Char, textLeList x y = true ∨ textLeList y x = true
  | [], _ => Or.inl rfl
  | _ :: _, [] => Or.inr rfl
  | a :: as, b :: bs => by
    unfold textLeList
    rcases Nat.lt_trichotomy a.toNat b.toNat with h | h | h
    · left; simp [h]
    · have h1 : ¬ a.toNat < b.toNat := by omega
      have h2 : ¬ b.toNat < a.toNat := by omega
      simp only [h1, h2, if_false]
      exact textLeList_total as bs
    · right; simp [h]

theorem textLeList_trans : ∀ x y z : List Char,
    textLeList x y = true → textLeList y z = true → textLeList x z = true
  | [], _, _ => fun _ _ => rfl
  | a :: as, [], _ => fun h1 _ => by simp [textLeList] at h1
  | a :: as, b :: bs, [] => fun _ h2 => by simp [textLeList] at h2
  | a :: as, b :: bs, c :: cs => by
    unfold textLeList
    rcases Nat.lt_trichotomy a.toNat b.toNat with hab | hab | hab <;>
      rcases Nat.lt_trichotomy b.toNat c.toNat with hbc | hbc | hbc <;>
        intro h1 h2
    · simp [show a.toNat < c.toNat from by omega]
    · simp [show a.toNat < c.toNat from by omega]
    · simp [show ¬ b.toNat < c.toNat from by omega,
        show c.toNat < b.toNat from hbc] at h2
    · simp [show a.toNat < c.toNat from by omega]
    · have h1' : textLeList as bs = true := by
        simpa [show ¬ a.toNat < b.toNat from by omega,
          show ¬ b.toNat < a.toNat from by omega] using h1
      have h2' : textLeList bs cs = true := by
        simpa [show ¬ b.toNat < c.toNat from by omega,
          show ¬ c.toNat < b.toNat from by omega] using h2
      simp only [show ¬ a.toNat < c.toNat from by omega,
        show ¬ c.toNat < a.toNat from by omega, if_false]
      exact textLeList_trans as bs cs h1' h2'
    · simp [show ¬ b.toNat < c.toNat from by omega,
        show c.toNat < b.toNat from hbc] at h2
    · simp [show ¬ a.toNat < b.toNat from by omega,
        show b.toNat < a.toNat from hab] at h1
    · simp [show ¬ a.toNat < b.toNat from by omega,
        show b.toNat < a.toNat from hab] at h1
    · simp [show ¬ a.toNat < b.toNat from by omega,
        show b.toNat < a.toNat from hab] at h1

theorem getLastD_mem {α : Type} : ∀ (l : List α) (d : α), l ≠ [] → l.getLastD d ∈ l
  | [], _, h => absurd rfl h
  | a :: t, d, _ => by
    rw [List.getLastD_cons]
    cases t with
    | nil => simp [List.getLastD]
    | cons b t' =>
      exact List.mem_cons_of_mem a (getLastD_mem (b :: t') a (by simp))

theorem pairwise_rel_getLastD {α : Type} (rel : α → α → Prop) (hrefl : ∀ a, rel a a) :
    ∀ (l : List α) (d : α), List.Pairwise rel l → ∀ x ∈ l, rel x (l.getLastD d)
  | [], _, _, x, hx => absurd hx (List.not_mem_nil x)
  | a :: t, d, hp, x, hx => by
    rw [List.getLastD_cons]
    rcases List.mem_cons.mp hx with rfl | hxt
    · cases t with
      | nil => exact hrefl x
      | cons b t' =>
        have hmem : (b :: t').getLastD x ∈ b :: t' := getLastD_mem _ _ (by simp)
        exact (List.pairwise_cons.mp hp).1 _ hmem
    · exact pairwise_rel_getLastD rel hrefl t a (List.pairwise_cons.mp hp).2 x hxt

/-- The record picked by sort-then-take-last has the maximal (latest)
record_date among the input records. -/
theorem latestRecordOf_max (records : List WeightRecordOut) :
    ∀ r ∈ records, sqliteTextLe r.record_date (latestRecordOf records).record_date = true := by
  intro r hr
  unfold latestRecordOf
  letI : IsTotal WeightRecordOut
      (fun a b => sqliteTextLe a.record_date b.record_date = true) :=
    ⟨fun a b => textLeList_total a.record_date.data b.record_date.data⟩
  letI : IsTrans WeightRecordOut
      (fun a b => sqliteTextLe a.record_date b.record_date = true) :=
    ⟨fun a b c => textLeList_trans a.record_date.data b.record_date.data c.record_date.data⟩
  have hs := List.sorted_insertionSort
    (fun a b : WeightRecordOut => sqliteTextLe a.record_date b.record_date = true) records
  refine pairwise_rel_getLastD
    (fun a b : WeightRecordOut => sqliteTextLe a.record_date b.record_date = true)
    (fun a => textLeList_refl a.record_date.data) _ _ hs r ?_
  rw [List.mem_insertionSort]
  exact hr

/-- Claim C7: for a non-empty weight collection the progress percentage equals
min(100, |initial-current| / |initial-target| * 100) when |initial-target| is
positive and 0 otherwise, where the current weight is the latest-by-date
record's weight (it dominates every record's date); and the worked example
initial 80, target 70, current 75 yields 50. -/
theorem weight_progress_formula :
    (∀ (records : List WeightRecordOut) (cw iw tw : Rat), records ≠ [] →
      (computeWeightStats records cw iw tw).progressPercentage =
        (if 0 < |iw - tw| then
          min 100 (|iw - currentWeightOf records| / |iw - tw| * 100)
         else 0) ∧
      ∀ r ∈ records,
        sqliteTextLe r.record_date (latestRecordOf records).record_date = true) ∧
    (computeWeightStats [w75ex] 0 80 70).progressPercentage = 50 := by
  constructor
  · intro records cw iw tw hne
    constructor
    · have hlen : ¬ records.length = 0 := by simpa using hne
      simp only [computeWeightStats, hlen, if_false]
      by_cases hc : 0 < |iw - tw|
      · simp only [hc, if_true]
        rw [min_comm]
      · simp only [hc, if_false]
    · exact latestRecordOf_max records
  · simp [computeWeightStats, currentWeightOf, latestRecordOf, w75ex,
      List.insertionSort, List.orderedInsert, List.getLastD]
    norm_num

/-- Witness for C7 at the single 75 kg record with initial 80 and target 70. -/
theorem weight_progress_formula_witness :
    (computeWeightStats [w75ex] 0 80 70).progressPercentage =
      (if 0 < |(80 : Rat) - 70| then
        min 100 (|(80 : Rat) - currentWeightOf [w75ex]| / |(80 : Rat) - 70| * 100)
       else 0) ∧
    sqliteTextLe w75ex.record_date (latestRecordOf [w75ex]).record_date = true := by
  have h := weight_progress_formula.1 [w75ex] 0 80 70 (by simp)
  exact ⟨h.1, h.2 w75ex (List.mem_singleton_self _)⟩
